import Mathlib

/-!
Package screl: attribute vocabulary, schema registrations and the target/node join clause

A shallow embedding of `pkg/sql/schemachanger/screl/attr.go`.

* `scpb` enumerates the entity kinds whose reflect types the file mentions.
* `rel` holds the parts of the relational query library the file calls
  (clause constructors, schema registration primitives, clause satisfaction);
  that package is not part of the embedded source, so these are modelled.
* `screl` holds the embedded file itself: the `Attr` constants, `Schema`,
  `MustQuery` and `JoinTargetNode`.
-/

/-- The struct types of package scpb named in attr.go, each standing for the
reflect type obtained from a nil pointer of that type. -/
inductive scpb where
  | Node
  | Target
  | Column
  | PrimaryIndex
  | SecondaryIndex
  | SequenceDependency
  | UniqueConstraint
  | CheckConstraint
  | Sequence
  | DefaultExpression
  | View
  | TypeReference
  | Table
  | InboundForeignKey
  | OutboundForeignKey
  | RelationDependedOnBy
  | SequenceOwnedBy
  | Type_
  | Schema
  | Database
  | Partitioning
  deriving DecidableEq, Repr

namespace rel

/-- Modelled from the spec: the query library's variable type (a named logical
variable); the library itself is not part of the embedded source. -/
abbrev Var := String

/-- Modelled from the spec: the query library's clause-construction primitives
(section 6: "variable is of kind K", "variable's attribute A equals variable
B", and conjunction of clauses), as the free syntax of clauses. Attributes are
carried by their integer identifier. -/
inductive Clause where
  | typ (v : Var) (k : scpb)
  | attrEqVar (v : Var) (a : Int) (w : Var)
  | and (cs : List Clause)

/-- Modelled from the spec: `rel.And(clauses...)`, the conjunction of clauses. -/
def And (clauses : List Clause) : Clause := Clause.and clauses

/-- Modelled from the spec: `v.Type(valueForTypeOf)`, the constraint that the
variable is of the kind of the given value. -/
def Var.IsType (v : Var) (k : scpb) : Clause := Clause.typ v k

/-- Modelled from the spec: `v.AttrEqVar(a, w)`, the constraint that attribute
`a` of `v` equals the value bound to `w`. -/
def Var.AttrEqVar (v : Var) (a : Int) (w : Var) : Clause := Clause.attrEqVar v a w

/-- The conjuncts of a clause built by `And`; any other clause has none. -/
def Clause.conjuncts : Clause → List Clause
  | Clause.and cs => cs
  | _ => []

/-- Modelled from the spec: the value of `rel.EntityAttr(a, selectors...)`: one
attribute bound to its field locators. -/
structure EntityMappingOption where
  attr : Int
  selectors : List String
  deriving DecidableEq, Repr

/-- Modelled from the spec: the values of `rel.AttrType` and
`rel.EntityMapping`, the two registrations a schema is made of. -/
inductive SchemaOption where
  | attrType (a : Int) (typeName : String)
  | entityMapping (typ : scpb) (opts : List EntityMappingOption)
  deriving DecidableEq, Repr

/-- Modelled from the spec: the schema object, held as its name and the list of
registrations it was built from, in source order. -/
structure Schema where
  name : String
  options : List SchemaOption
  deriving DecidableEq, Repr

/-- Modelled from the spec: `rel.EntityAttr`. -/
def EntityAttr (a : Int) (selectors : List String) : EntityMappingOption :=
  { attr := a, selectors := selectors }

/-- Modelled from the spec: `rel.EntityMapping`. -/
def EntityMapping (typ : scpb) (opts : List EntityMappingOption) : SchemaOption :=
  SchemaOption.entityMapping typ opts

/-- Modelled from the spec: `rel.AttrType`. -/
def AttrType (a : Int) (typeName : String) : SchemaOption :=
  SchemaOption.attrType a typeName

/-- Modelled from the spec: `rel.MustSchema`; the validation the library runs
on the registrations is not part of the embedded source, so the schema is the
record of its registrations. -/
def MustSchema (name : String) (opts : List SchemaOption) : Schema :=
  { name := name, options := opts }

/-- The entity mappings of a schema, in registration order. -/
def Schema.mappings (s : Schema) : List (scpb × List EntityMappingOption) :=
  s.options.filterMap fun o =>
    match o with
    | SchemaOption.entityMapping k opts => some (k, opts)
    | SchemaOption.attrType _ _ => none

/-- The attribute registrations of the first mapping of kind `k`, if any. -/
def Schema.mappingOf (s : Schema) (k : scpb) : Option (List EntityMappingOption) :=
  (s.mappings.find? fun m => decide (m.1 = k)).map Prod.snd

/-- The field locators registered for attribute `a` on kind `k`, if any. -/
def Schema.selectorsOf (s : Schema) (k : scpb) (a : Int) : Option (List String) :=
  match s.mappingOf k with
  | none => none
  | some opts => (opts.find? fun o => decide (o.attr = a)).map EntityMappingOption.selectors

/-- Modelled from the spec: the facts a query is evaluated over. Values are the
things a variable can be bound to; `typeOf` gives the one entity kind of a
value (none for a value that is not an entity), and `field` reads a named field
of an entity, yielding none when the field is absent or not populated. -/
structure Facts (V : Type) where
  typeOf : V → Option scpb
  field : V → String → Option V

/-- Modelled from the spec: the value of attribute `a` on the value `x` under
schema `s`: the field locators registered for `a` on the kind of `x` are probed
in order and the first populated one is taken (section 4.2). -/
def attrValue {V : Type} (s : Schema) (F : Facts V) (x : V) (a : Int) : Option V :=
  match F.typeOf x with
  | none => none
  | some k =>
    match s.selectorsOf k a with
    | none => none
    | some sels => (sels.filterMap (F.field x)).head?

mutual
/-- Modelled from the spec: satisfaction of a clause by a binding of the
variables: a kind constraint holds when the bound value has that kind, an
attribute-equality constraint when the attribute of the first variable's value
is the value of the second, a conjunction when every conjunct holds. -/
def sat {V : Type} [DecidableEq V] (s : Schema) (F : Facts V) (b : Var → Option V) :
    Clause → Bool
  | Clause.typ v k =>
    match b v with
    | none => false
    | some x => decide (F.typeOf x = some k)
  | Clause.attrEqVar v a w =>
    match b v, b w with
    | some x, some y => decide (attrValue s F x a = some y)
    | _, _ => false
  | Clause.and cs => satAll s F b cs
/-- Satisfaction of every clause of a list. -/
def satAll {V : Type} [DecidableEq V] (s : Schema) (F : Facts V) (b : Var → Option V) :
    List Clause → Bool
  | [] => true
  | c :: cs => sat s F b c && satAll s F b cs
end

/-- The binding that sends `element`, `target` and `node` to `e`, `t` and `n`
(a later role wins when two roles share a variable) and binds nothing else. -/
def bind3 {V : Type} (element target node : Var) (e t n : V) : Var → Option V :=
  fun x =>
    if x = node then some n
    else if x = target then some t
    else if x = element then some e
    else none

/-- Modelled from the spec: the triples of entities of `db` that a clause selects
for the variables `element`, `target`, `node`. -/
def selectTriples {V : Type} [DecidableEq V] (s : Schema) (F : Facts V) (db : List V)
    (c : Clause) (element target node : Var) : List (V × V × V) :=
  (db.flatMap fun e => db.flatMap fun t => db.map fun n => (e, t, n)).filter
    fun r => sat s F (bind3 element target node r.1 r.2.1 r.2.2) c

end rel

namespace screl

/-- The Go declaration `type Attr int`. -/
abbrev Attr := Int

/-- The value of `iota` on the given line of the const block (counted from 0). -/
def iota (line : Nat) : Attr := (line : Int)

/-- DescID is the descriptor ID to which this element belongs. -/
def DescID : Attr := iota 1
/-- ReferencedDescID is the descriptor ID to which this element refers. -/
def ReferencedDescID : Attr := iota 2
/-- ColumnID is the column ID to which this element corresponds. -/
def ColumnID : Attr := iota 3
/-- Name is the name of the element. -/
def Name : Attr := iota 4
/-- IndexID is the index ID to which this element corresponds. -/
def IndexID : Attr := iota 5
/-- Direction is the direction of a Target. -/
def Direction : Attr := iota 6
/-- Status is the Status of a Node. -/
def Status : Attr := iota 7
/-- Element references an element. -/
def Element : Attr := iota 8
/-- Target is the reference from a node to a target. -/
def Target : Attr := iota 9

/-- The nine attributes declared by the const block, in declaration order. -/
def declaredAttrs : List Attr :=
  [DescID, ReferencedDescID, ColumnID, Name, IndexID, Direction, Status, Element, Target]

/-- Schema is the schema exported by this package covering the elements of scpb. -/
def Schema : rel.Schema :=
  rel.MustSchema "screl" [
    rel.AttrType Element "protoutil.Message",
    rel.EntityMapping scpb.Node [
      rel.EntityAttr Status ["Status"],
      rel.EntityAttr Target ["Target"]],
    rel.EntityMapping scpb.Target [
      rel.EntityAttr Direction ["Direction"],
      rel.EntityAttr Element [
        "Column",
        "PrimaryIndex",
        "SecondaryIndex",
        "SequenceDependency",
        "UniqueConstraint",
        "CheckConstraint",
        "Sequence",
        "DefaultExpression",
        "View",
        "TypeRef",
        "Table",
        "OutForeignKey",
        "InForeignKey",
        "RelationDependedOnBy",
        "SequenceOwner",
        "Type",
        "Schema",
        "Database"]],
    rel.EntityMapping scpb.Column [
      rel.EntityAttr DescID ["TableID"],
      rel.EntityAttr ColumnID ["Column.ID"],
      rel.EntityAttr Name ["Column.Name"]],
    rel.EntityMapping scpb.PrimaryIndex [
      rel.EntityAttr DescID ["TableID"],
      rel.EntityAttr IndexID ["IndexId"],
      rel.EntityAttr Name ["IndexName"]],
    rel.EntityMapping scpb.SecondaryIndex [
      rel.EntityAttr DescID ["TableID"],
      rel.EntityAttr IndexID ["IndexId"],
      rel.EntityAttr Name ["IndexName"]],
    rel.EntityMapping scpb.SequenceDependency [
      rel.EntityAttr DescID ["SequenceID"],
      rel.EntityAttr ReferencedDescID ["TableID"],
      rel.EntityAttr ColumnID ["ColumnID"]],
    rel.EntityMapping scpb.UniqueConstraint [
      rel.EntityAttr DescID ["TableID"],
      rel.EntityAttr IndexID ["IndexID"]],
    rel.EntityMapping scpb.CheckConstraint [
      rel.EntityAttr DescID ["TableID"],
      rel.EntityAttr Name ["Name"]],
    rel.EntityMapping scpb.Sequence [
      rel.EntityAttr DescID ["SequenceID"]],
    rel.EntityMapping scpb.DefaultExpression [
      rel.EntityAttr DescID ["TableID"],
      rel.EntityAttr ColumnID ["ColumnID"]],
    rel.EntityMapping scpb.View [
      rel.EntityAttr DescID ["TableID"]],
    rel.EntityMapping scpb.TypeReference [
      rel.EntityAttr DescID ["DescID"],
      rel.EntityAttr ReferencedDescID ["TypeID"]],
    rel.EntityMapping scpb.Table [
      rel.EntityAttr DescID ["TableID"]],
    rel.EntityMapping scpb.InboundForeignKey [
      rel.EntityAttr DescID ["OriginID"],
      rel.EntityAttr ReferencedDescID ["ReferenceID"],
      rel.EntityAttr Name ["Name"]],
    rel.EntityMapping scpb.OutboundForeignKey [
      rel.EntityAttr DescID ["OriginID"],
      rel.EntityAttr ReferencedDescID ["ReferenceID"],
      rel.EntityAttr Name ["Name"]],
    rel.EntityMapping scpb.RelationDependedOnBy [
      rel.EntityAttr DescID ["TableID"],
      rel.EntityAttr ReferencedDescID ["DependedOnBy"]],
    rel.EntityMapping scpb.SequenceOwnedBy [
      rel.EntityAttr DescID ["SequenceID"],
      rel.EntityAttr ReferencedDescID ["OwnerTableID"]],
    rel.EntityMapping scpb.Type_ [
      rel.EntityAttr DescID ["TypeID"]],
    rel.EntityMapping scpb.Schema [
      rel.EntityAttr DescID ["SchemaID"]],
    rel.EntityMapping scpb.Database [
      rel.EntityAttr DescID ["DatabaseID"]],
    rel.EntityMapping scpb.Partitioning [
      rel.EntityAttr DescID ["TableID"],
      rel.EntityAttr IndexID ["IndexId"]]]

/-- The result of running a Go function whose body may panic: it either returns
a value or panics with one. -/
inductive Outcome (Q E : Type) where
  | returned (q : Q)
  | panicked (e : E)
  deriving DecidableEq, Repr

/-- MustQuery constructs a query using this package's schema; it panics if
query construction fails. `NewQuery` stands for `rel.NewQuery`, whose body is
not part of the embedded source: it yields the Go result pair, a query pointer
and an error that is `none` when nil. -/
def MustQuery {Q E : Type} (NewQuery : rel.Schema → List rel.Clause → Q × Option E)
    (clauses : List rel.Clause) : Outcome Q E :=
  match NewQuery Schema clauses with
  | (_, some err) => Outcome.panicked err
  | (q, none) => Outcome.returned q

/-- JoinTargetNode generates a clause that joins the target and node vars to
the corresponding element. -/
def JoinTargetNode (element target node : rel.Var) : rel.Clause :=
  rel.And [
    rel.Var.IsType target scpb.Target,
    rel.Var.AttrEqVar target Element element,
    rel.Var.IsType node scpb.Node,
    rel.Var.AttrEqVar node Target target]

/-- The mappings of the schema-element kinds: every entity mapping of `Schema`
whose kind is neither Node nor Target. -/
def elementMappings : List (scpb × List rel.EntityMappingOption) :=
  Schema.mappings.filter fun m => decide (m.1 ≠ scpb.Node ∧ m.1 ≠ scpb.Target)

/-- The alternative field names registered for the Element attribute of Target. -/
def elementAlternatives : List String :=
  (Schema.selectorsOf scpb.Target Element).getD []

/-- Every (kind, attribute, field locators) registration of `Schema`. -/
def registrations : List (scpb × Attr × List String) :=
  Schema.mappings.flatMap fun m => m.2.map fun o => (m.1, o.attr, o.selectors)

end screl

/-- A small fact base over natural-number values: 1 is a Node whose Target
field is 2, 2 is a Target whose Column field is 3, 3 is a Column. -/
def demoFacts : rel.Facts Nat where
  typeOf := fun x =>
    if x = 1 then some scpb.Node
    else if x = 2 then some scpb.Target
    else if x = 3 then some scpb.Column
    else none
  field := fun x f =>
    if x = 1 ∧ f = "Target" then some 2
    else if x = 2 ∧ f = "Column" then some 3
    else none

/-- A fact base on the one element kind without an alternative field name: 10
is a Node whose Target field is 20, 20 is a Target whose Partitioning field is
30, 30 is a Partitioning. -/
def partitioningFacts : rel.Facts Nat where
  typeOf := fun x =>
    if x = 10 then some scpb.Node
    else if x = 20 then some scpb.Target
    else if x = 30 then some scpb.Partitioning
    else none
  field := fun x f =>
    if x = 10 ∧ f = "Target" then some 20
    else if x = 20 ∧ f = "Partitioning" then some 30
    else none

namespace screl

/-- The Node->Target->Element chaining in the words of the spec (section 3),
read on the fields of the entities: `n` is a Node whose Target field refers to
`t`, `t` is a Target, and `t` refers, through its populated field `f`, to `e`,
an instance of a schema-element kind registered in `Schema`. -/
def specChained {V : Type} [DecidableEq V] (F : rel.Facts V) (f : String) (e t n : V) : Bool :=
  decide (F.typeOf n = some scpb.Node)
    && decide (F.typeOf t = some scpb.Target)
    && decide (F.field n "Target" = some t)
    && decide (F.field t f = some e)
    && (elementMappings.map Prod.fst).any fun k => decide (F.typeOf e = some k)

end screl

namespace screl

/-- C1: for pairwise distinct variables element, target, node, JoinTargetNode
returns a conjunction whose conjuncts are exactly four, pairwise different,
constraints: target is of kind scpb.Target, target's Element attribute equals
element, node is of kind scpb.Node, node's Target attribute equals target; a
clause is a conjunct if and only if it is one of these four. -/
theorem JoinTargetNode_four_constraints (element target node : rel.Var)
    (_het : element ≠ target) (_hen : element ≠ node) (_htn : target ≠ node) :
    JoinTargetNode element target node =
        rel.Clause.and [
          rel.Clause.typ target scpb.Target,
          rel.Clause.attrEqVar target Element element,
          rel.Clause.typ node scpb.Node,
          rel.Clause.attrEqVar node Target target]
      ∧ (JoinTargetNode element target node).conjuncts.length = 4
      ∧ (JoinTargetNode element target node).conjuncts.Nodup
      ∧ ∀ c : rel.Clause, c ∈ (JoinTargetNode element target node).conjuncts ↔
          (c = rel.Clause.typ target scpb.Target
            ∨ c = rel.Clause.attrEqVar target Element element
            ∨ c = rel.Clause.typ node scpb.Node
            ∨ c = rel.Clause.attrEqVar node Target target) := by
  refine ⟨rfl, rfl, ?_, ?_⟩
  · simp [JoinTargetNode, rel.And, rel.Var.IsType, rel.Var.AttrEqVar, rel.Clause.conjuncts,
      Element, Target, iota]
  · intro c
    simp [JoinTargetNode, rel.And, rel.Var.IsType, rel.Var.AttrEqVar, rel.Clause.conjuncts]

/-- Witness for C1 at the variables "element", "target", "node". -/
theorem JoinTargetNode_four_constraints_witness :
    JoinTargetNode "element" "target" "node" =
        rel.Clause.and [
          rel.Clause.typ "target" scpb.Target,
          rel.Clause.attrEqVar "target" 8 "element",
          rel.Clause.typ "node" scpb.Node,
          rel.Clause.attrEqVar "node" 9 "target"]
      ∧ (JoinTargetNode "element" "target" "node").conjuncts.length = 4 :=
  have h := JoinTargetNode_four_constraints "element" "target" "node"
    (by decide) (by decide) (by decide)
  ⟨h.1, h.2.1⟩

/-- C2: the identifiers of the nine declared attributes are pairwise distinct
and none of them is the reserved value 0. -/
theorem declaredAttrs_distinct_nonzero :
    declaredAttrs.length = 9
      ∧ declaredAttrs.Pairwise (fun a b => a ≠ b)
      ∧ (0 : Attr) ∉ declaredAttrs := by
  decide

/-- C3: in every entity mapping registered in Schema, each attribute appears at
most once in the mapping's list of EntityAttr registrations. -/
theorem mapping_attrs_nodup (m : scpb × List rel.EntityMappingOption)
    (hm : m ∈ Schema.mappings) :
    (m.2.map rel.EntityMappingOption.attr).Nodup := by
  revert m
  decide

/-- Witness for C3 at the Node mapping. -/
theorem mapping_attrs_nodup_witness :
    ([Status, Target] : List Attr).Nodup :=
  mapping_attrs_nodup
    (scpb.Node, [rel.EntityAttr Status ["Status"], rel.EntityAttr Target ["Target"]])
    (by decide)

/-- C4 (evaluation of the code): Schema registers nineteen element-kind
mappings of pairwise different kinds, scpb.Partitioning among them, while the
Element attribute of Target lists eighteen alternative field names, none of
them "Partitioning"; so the alternatives are fewer than the element-kind
mappings, and whatever kind each alternative field holds, some mapped element
kind is held by none of them. -/
theorem elementAlternatives_not_exhaustive :
    elementAlternatives.length = 18
      ∧ elementMappings.length = 19
      ∧ (elementMappings.map Prod.fst).Nodup
      ∧ scpb.Partitioning ∈ elementMappings.map Prod.fst
      ∧ "Partitioning" ∉ elementAlternatives
      ∧ ¬ (elementMappings.length ≤ elementAlternatives.length)
      ∧ ∀ fieldKind : String → scpb,
          ∃ k ∈ elementMappings.map Prod.fst,
            ∀ name ∈ elementAlternatives, fieldKind name ≠ k := by
  have hnd : (elementMappings.map Prod.fst).Nodup := by decide
  refine ⟨by decide, by decide, hnd, by decide, by decide, by decide, ?_⟩
  intro fieldKind
  by_contra hcon
  push_neg at hcon
  have hsub : elementMappings.map Prod.fst ⊆ elementAlternatives.map fieldKind := by
    intro k hk
    obtain ⟨name, hname, hk2⟩ := hcon k hk
    exact List.mem_map.mpr ⟨name, hname, hk2⟩
  have hle := (hnd.subperm hsub).length_le
  have h1 : (elementMappings.map Prod.fst).length = 19 := by decide
  have h2 : (elementAlternatives.map fieldKind).length = 18 := by
    rw [List.length_map]
    decide
  omega

/-- The value of the Target attribute of a Node is its field named "Target". -/
theorem attrValue_Node_Target {V : Type} (F : rel.Facts V) (n : V)
    (hn : F.typeOf n = some scpb.Node) :
    rel.attrValue Schema F n Target = F.field n "Target" := by
  have hsel : Schema.selectorsOf scpb.Node Target = some ["Target"] := by decide
  unfold rel.attrValue
  rw [hn]
  simp only [hsel]
  cases hfield : F.field n "Target" <;> simp [List.filterMap_cons, hfield]

/-- The value of the Element attribute of a Target is the first populated one
of the alternative fields registered for it. -/
theorem attrValue_Target_Element {V : Type} (F : rel.Facts V) (t : V)
    (ht : F.typeOf t = some scpb.Target) :
    rel.attrValue Schema F t Element = (elementAlternatives.filterMap (F.field t)).head? := by
  have hsel : Schema.selectorsOf scpb.Target Element = some elementAlternatives := by decide
  unfold rel.attrValue
  rw [ht]
  simp only [hsel]

/-- The first populated field of a list of field names is the value of `f` when
`f` is in the list and is the only populated one. -/
theorem head_filterMap_only {V : Type} (g : String → Option V) (f : String) (e : V)
    (names : List String) (hf : f ∈ names) (he : g f = some e)
    (hone : ∀ f2 ∈ names, f2 ≠ f → g f2 = none) :
    (names.filterMap g).head? = some e := by
  induction names with
  | nil => cases hf
  | cons a rest ih =>
    by_cases ha : a = f
    · subst ha
      simp [List.filterMap_cons, he]
    · have hnone : g a = none := hone a (List.mem_cons_self a rest) ha
      have hf2 : f ∈ rest := by
        rcases List.mem_cons.mp hf with h | h
        · exact absurd h.symm ha
        · exact h
      rw [List.filterMap_cons, hnone]
      exact ih hf2 fun f2 h2 hne => hone f2 (List.mem_cons_of_mem a h2) hne

/-- The first populated field of a list of field names is the value of one of
the names of the list. -/
theorem exists_of_head_filterMap {V : Type} (g : String → Option V) (e : V)
    (names : List String) (h : (names.filterMap g).head? = some e) :
    ∃ f ∈ names, g f = some e := by
  have hmem : e ∈ names.filterMap g := List.mem_of_mem_head? h
  obtain ⟨f, hf, hg⟩ := List.mem_filterMap.mp hmem
  exact ⟨f, hf, hg⟩

/-- Satisfaction of the join clause by a binding of pairwise distinct variables,
read on the attributes of the bound values. -/
theorem sat_JoinTargetNode_iff_attrs {V : Type} [DecidableEq V] (F : rel.Facts V)
    (element target node : rel.Var)
    (het : element ≠ target) (hen : element ≠ node) (htn : target ≠ node) (e t n : V) :
    rel.sat Schema F (rel.bind3 element target node e t n)
          (JoinTargetNode element target node) = true ↔
        (F.typeOf t = some scpb.Target ∧ F.typeOf n = some scpb.Node
          ∧ rel.attrValue Schema F n Target = some t
          ∧ rel.attrValue Schema F t Element = some e) := by
  simp only [JoinTargetNode, rel.And, rel.Var.IsType, rel.Var.AttrEqVar, rel.sat, rel.satAll,
    rel.bind3, het, hen, htn, if_true, if_false, Bool.and_true, Bool.and_eq_true,
    decide_eq_true_eq]
  tauto

/-- Only chained triples satisfy the join clause: a satisfying binding has a
Node whose Target field is the Target, and the Target holds the element in one
of the alternative fields registered for the Element attribute. -/
theorem sat_JoinTargetNode_fields {V : Type} [DecidableEq V] (F : rel.Facts V)
    (element target node : rel.Var)
    (het : element ≠ target) (hen : element ≠ node) (htn : target ≠ node) (e t n : V)
    (hsat : rel.sat Schema F (rel.bind3 element target node e t n)
      (JoinTargetNode element target node) = true) :
    F.typeOf t = some scpb.Target ∧ F.typeOf n = some scpb.Node
      ∧ F.field n "Target" = some t
      ∧ ∃ f ∈ elementAlternatives, F.field t f = some e := by
  obtain ⟨ht, hn, hnt, hte⟩ :=
    (sat_JoinTargetNode_iff_attrs F element target node het hen htn e t n).mp hsat
  rw [attrValue_Node_Target F n hn] at hnt
  rw [attrValue_Target_Element F t ht] at hte
  exact ⟨ht, hn, hnt, exists_of_head_filterMap (F.field t) e elementAlternatives hte⟩

/-- A chained triple whose Target holds the element in a registered alternative
field, the only populated one of them, satisfies the join clause. -/
theorem sat_JoinTargetNode_of_alternative {V : Type} [DecidableEq V] (F : rel.Facts V)
    (element target node : rel.Var)
    (het : element ≠ target) (hen : element ≠ node) (htn : target ≠ node) (e t n : V)
    (f : String) (hch : specChained F f e t n = true) (hf : f ∈ elementAlternatives)
    (hone : ∀ f2 ∈ elementAlternatives, f2 ≠ f → F.field t f2 = none) :
    rel.sat Schema F (rel.bind3 element target node e t n)
      (JoinTargetNode element target node) = true := by
  simp only [specChained, Bool.and_eq_true, decide_eq_true_eq] at hch
  obtain ⟨⟨⟨⟨hn, ht⟩, hnt⟩, hte⟩, _⟩ := hch
  refine (sat_JoinTargetNode_iff_attrs F element target node het hen htn e t n).mpr
    ⟨ht, hn, ?_, ?_⟩
  · rw [attrValue_Node_Target F n hn]
    exact hnt
  · rw [attrValue_Target_Element F t ht]
    exact head_filterMap_only (F.field t) f e elementAlternatives hf hte hone

/-- C5 (evaluation of the code): over the facts Node 10 -> Target 20 ->
Partitioning 30, the triple (30, 20, 10) is chained in the words of the spec,
30 being of a schema-element kind registered in Schema; yet the Element
attribute of the Target has no value, the binding of (30, 20, 10) does not
satisfy JoinTargetNode("e", "t", "n") and the clause selects no triple at all,
so it does not select all chained triples; the Column triple (3, 2, 1) of the
demonstration facts, chained in the same way, is selected. -/
theorem JoinTargetNode_misses_partitioning :
    specChained partitioningFacts "Partitioning" 30 20 10 = true
      ∧ partitioningFacts.typeOf 30 = some scpb.Partitioning
      ∧ scpb.Partitioning ∈ elementMappings.map Prod.fst
      ∧ rel.attrValue Schema partitioningFacts 10 Target = some 20
      ∧ rel.attrValue Schema partitioningFacts 20 Element = none
      ∧ rel.sat Schema partitioningFacts (rel.bind3 "e" "t" "n" 30 20 10)
          (JoinTargetNode "e" "t" "n") = false
      ∧ rel.selectTriples Schema partitioningFacts [10, 20, 30]
          (JoinTargetNode "e" "t" "n") "e" "t" "n" = []
      ∧ specChained demoFacts "Column" 3 2 1 = true
      ∧ rel.selectTriples Schema demoFacts [1, 2, 3]
          (JoinTargetNode "e" "t" "n") "e" "t" "n" = [(3, 2, 1)]
      ∧ ¬ (∀ (F : rel.Facts Nat) (f : String) (e t n : Nat),
            specChained F f e t n = true →
              rel.sat Schema F (rel.bind3 "e" "t" "n" e t n)
                (JoinTargetNode "e" "t" "n") = true) := by
  refine ⟨by decide, by decide, by decide, by decide, by decide, by decide, by decide,
    by decide, by decide, ?_⟩
  intro hall
  have h := hall partitioningFacts "Partitioning" 30 20 10 (by decide)
  have h2 : rel.sat Schema partitioningFacts (rel.bind3 "e" "t" "n" 30 20 10)
      (JoinTargetNode "e" "t" "n") = false := by decide
  rw [h2] at h
  cases h

/-- C6: whatever rel.NewQuery computes, MustQuery hands it this package's
Schema and the clauses; it returns a query exactly when NewQuery reports no
error, and then the query NewQuery built; it panics exactly when NewQuery
reports an error, and then with that error, returning no query. -/
theorem MustQuery_returns_or_panics {Q E : Type}
    (NewQuery : rel.Schema → List rel.Clause → Q × Option E) (clauses : List rel.Clause) :
    (∀ q : Q, MustQuery NewQuery clauses = Outcome.returned q ↔
        ((NewQuery Schema clauses).2 = none ∧ (NewQuery Schema clauses).1 = q))
      ∧ (∀ err : E, MustQuery NewQuery clauses = Outcome.panicked err ↔
        (NewQuery Schema clauses).2 = some err)
      ∧ ((∃ err : E, MustQuery NewQuery clauses = Outcome.panicked err) ↔
        (NewQuery Schema clauses).2 ≠ none)
      ∧ ((NewQuery Schema clauses).2 ≠ none ↔
        ∀ q : Q, MustQuery NewQuery clauses ≠ Outcome.returned q) := by
  unfold MustQuery
  rcases hres : NewQuery Schema clauses with ⟨q0, _ | e0⟩
  · simp
  · simp

/-- C7: in Schema the mappings of kind Node are one mapping, registering
exactly Status and Target; the mappings of kind Target are one mapping,
registering exactly Direction and Element; and no registration of any other
kind is for Status, Target, Direction or Element. -/
theorem node_target_mapping_attrs :
    ((Schema.mappings.filter fun m => decide (m.1 = scpb.Node)).map
          fun m => m.2.map rel.EntityMappingOption.attr) = [[Status, Target]]
      ∧ ((Schema.mappings.filter fun m => decide (m.1 = scpb.Target)).map
          fun m => m.2.map rel.EntityMappingOption.attr) = [[Direction, Element]]
      ∧ (registrations.filter fun r =>
          decide (r.1 ≠ scpb.Node ∧ r.1 ≠ scpb.Target
            ∧ r.2.1 ∈ [Status, Target, Direction, Element])) = [] := by
  decide

/-- C8: the registrations of Schema that do not name exactly one field locator
are a single one, the Element attribute of the Target kind; its list of
alternative field names is non-empty and repeats no name. -/
theorem element_only_multivariant :
    (registrations.filter fun r => decide (r.2.2.length ≠ 1))
        = [(scpb.Target, Element, elementAlternatives)]
      ∧ elementAlternatives ≠ []
      ∧ elementAlternatives.Nodup
      ∧ 1 < elementAlternatives.length := by
  decide

/-- C9: for every variable e and v, JoinTargetNode(e, v, v) is the same
four-constraint conjunction, requiring v to be of kind Target and of kind Node;
as a value has one kind, no binding satisfies it, over any facts. -/
theorem JoinTargetNode_same_var_unsat (e v : rel.Var) :
    JoinTargetNode e v v =
        rel.Clause.and [
          rel.Clause.typ v scpb.Target,
          rel.Clause.attrEqVar v Element e,
          rel.Clause.typ v scpb.Node,
          rel.Clause.attrEqVar v Target v]
      ∧ (JoinTargetNode e v v).conjuncts.length = 4
      ∧ ∀ (V : Type) (_ : DecidableEq V) (F : rel.Facts V) (b : rel.Var → Option V),
          rel.sat Schema F b (JoinTargetNode e v v) = false := by
  refine ⟨rfl, rfl, ?_⟩
  intro V _ F b
  cases hs : rel.sat Schema F b (JoinTargetNode e v v) with
  | false => rfl
  | true =>
    exfalso
    simp only [JoinTargetNode, rel.And, rel.Var.IsType, rel.Var.AttrEqVar, rel.sat, rel.satAll,
      Bool.and_eq_true] at hs
    obtain ⟨hTarget, _, hNode, _⟩ := hs
    cases hb : b v with
    | none => simp [hb] at hTarget
    | some x =>
      simp only [hb, decide_eq_true_eq] at hTarget hNode
      rw [hTarget] at hNode
      cases hNode

/-- C10: every element-kind mapping of Schema registers DescID exactly once,
with a single field locator; and no entity kind has two mappings in Schema. -/
theorem element_mapping_has_DescID (m : scpb × List rel.EntityMappingOption)
    (hm : m ∈ elementMappings) :
    ((m.2.filter fun o => decide (o.attr = DescID)).map
          fun o => o.selectors.length) = [1]
      ∧ (Schema.mappings.map Prod.fst).Nodup := by
  revert m
  decide

/-- Witness for C10 at the Partitioning mapping. -/
theorem element_mapping_has_DescID_witness :
    (([rel.EntityAttr DescID ["TableID"], rel.EntityAttr IndexID ["IndexId"]].filter
          fun o => decide (o.attr = DescID)).map fun o => o.selectors.length) = [1]
      ∧ (Schema.mappings.map Prod.fst).Nodup :=
  element_mapping_has_DescID
    (scpb.Partitioning, [rel.EntityAttr DescID ["TableID"], rel.EntityAttr IndexID ["IndexId"]])
    (by decide)

end screl
